import Mathlib

/-!
Shallow embedding of the niconico live control-channel supervisor
(`src/yt_dlp/downloader/niconico.py`): the `communicate_ws` session loop,
the `ws_main` reconnect supervisor, and the `real_download` entry point.

The websocket transport is scripted: a `SessionScript` records whether the
connection open succeeds, which sends succeed (indexed in send order per
socket), and the list of receive results.  JSON values delivered by
`json.loads` are modelled by `JVal`; a frame whose text does not parse is
`Frame.malformed` (on which `json.loads` raises).  Side effects (sent
frames, log lines, socket open/close, sleeps, the media-delegate call)
are collected in an event trace.
-/

/-- JSON values as produced by `json.loads` (numbers restricted to
integers; no claim depends on fractional numbers). -/
inductive JVal where
  | jnull : JVal
  | jbool : Bool → JVal
  | jnum : Int → JVal
  | jstr : String → JVal
  | jarr : List JVal → JVal
  | jobj : List (String × JVal) → JVal

/-- Python truthiness of a decoded JSON value (`not data`). -/
def JVal.truthy : JVal → Bool
  | .jnull => false
  | .jbool b => b
  | .jnum n => n != 0
  | .jstr s => s != ""
  | .jarr xs => !xs.isEmpty
  | .jobj fs => !fs.isEmpty

/-- Python `isinstance(data, dict)`. -/
def JVal.isObj : JVal → Bool
  | .jobj _ => true
  | _ => false

/-- Association-list lookup for object fields (`data[key]` / `data.get(key)`). -/
def lookupField : List (String × JVal) → String → Option JVal
  | [], _ => none
  | (k, v) :: rest, key => if k = key then some v else lookupField rest key

/-- Python `data.get(key)`: `None` when the value is not a dict or the key
is absent. -/
def JVal.get : JVal → String → Option JVal
  | .jobj fs, key => lookupField fs key
  | _, _ => none

/-- The `"type"` field of a decoded frame when it is a string;
`data.get('type') == s` holds exactly when `typeField = some s`. -/
def JVal.typeField (v : JVal) : Option String :=
  match v.get "type" with
  | some (.jstr s) => some s
  | _ => none

/-- Embedding of `try_get(data, lambda x: x["body"]["code"], compat_str)`:
index `body` then `code`, swallowing any indexing error, and keep the
result only when it is a string. -/
def tryGetBodyCode (v : JVal) : Option String :=
  match v.get "body" with
  | some b =>
    match b.get "code" with
    | some (.jstr s) => some s
    | _ => none
  | none => none

/-- Embedding of `try_get(data, ...) or recv`: Python `or` falls through to
`recv` when the left side is `None` or the empty string (both falsy). -/
def errorDetail (v : JVal) (raw : String) : String :=
  match tryGetBodyCode v with
  | some s => if s = "" then raw else s
  | none => raw

/-- Embedding of the verbose preview: `recv[:100] + '...'` when the frame
text is longer than 100 characters, the full text otherwise. -/
def preview (raw : String) : String :=
  if raw.length > 100 then raw.take 100 ++ "..." else raw

/-- One inbound frame text together with its `json.loads` behaviour:
`malformed` raises a decode error, `parsed` yields a `JVal`. -/
inductive Frame where
  | malformed : String → Frame
  | parsed : String → JVal → Frame

/-- The text returned by `ws.recv()` for a frame. -/
def Frame.raw : Frame → String
  | .malformed r => r
  | .parsed r _ => r

/-- One result of `ws.recv()`: a frame, or a transport failure (raises). -/
inductive RecvEvent where
  | frame : Frame → RecvEvent
  | fail : RecvEvent

/-- Exceptions that can escape `communicate_ws`. -/
inductive Exc where
  | openFail : Exc
  | recvFail : Exc
  | sendFail : Exc
  | jsonDecode : String → Exc

/-- How one call of `communicate_ws` ends: `return True` on a disconnect
frame, `return DownloadError(detail)` on an error frame, or an exception
propagating out. -/
inductive RunExit where
  | disconnect : RunExit
  | protocolError : String → RunExit
  | raised : Exc → RunExit

/-- Log lines emitted through `to_screen` / `write_debug`. -/
inductive LogLine where
  | sendingStartWatching : LogLine
  | writeDebug : JVal → LogLine
  | serverSaid : String → LogLine
  | reconnectingAfter : Exc → LogLine

/-- Observable events of one supervisor run. -/
inductive Ev where
  | sent : JVal → Ev
  | log : LogLine → Ev
  | opened : Ev
  | closed : Ev
  | slept : Nat → Ev
  | delegateCall : Ev

/-- The pong reply frame sent on a ping. -/
def pongJson : JVal := .jobj [("type", .jstr "pong")]

/-- The keep-seat frame sent on a ping. -/
def keepSeatJson : JVal := .jobj [("type", .jstr "keepSeat")]

/-- The startWatching frame built in `communicate_ws`, field for field the
Python dict passed to `json.dumps`. -/
def startWatchingJson (quality latency : String) : JVal :=
  .jobj [("type", .jstr "startWatching"),
         ("data", .jobj
           [("stream", .jobj
             [("quality", .jstr quality),
              ("protocol", .jstr "hls+fmp4"),
              ("latency", .jstr latency),
              ("chasePlay", .jbool false)]),
            ("room", .jobj
             [("protocol", .jstr "webSocket"),
              ("commentable", .jbool true)]),
            ("reconnect", .jbool true)])]

/-- The stream parameters the downloader reads from `info_dict`. -/
structure StreamTarget where
  live_quality : String
  live_latency : String

/-- Scripted transport behaviour for one session: whether the
`WebSocket(...)` constructor succeeds, whether the n-th send on this
socket succeeds, and the successive `ws.recv()` results. -/
structure SessionScript where
  openOk : Bool
  sendOk : Nat → Bool
  events : List RecvEvent

/-- The `while True` receive loop of `communicate_ws`, run against a finite
script of receive results.  The exit is `none` when the script is
exhausted while the loop is still blocked in `recv` (no exit happened
yet).  `n` is the index of the next send on this socket. -/
def runLoop (verbose : Bool) (sendOk : Nat → Bool) :
    Nat → List RecvEvent → Option RunExit × List Ev
  | _, [] => (none, [])
  | _, .fail :: _ => (some (.raised .recvFail), [])
  | n, .frame f :: rest =>
    if f.raw = "" then
      runLoop verbose sendOk n rest
    else
      match f with
      | .malformed raw => (some (.raised (.jsonDecode raw)), [])
      | .parsed raw v =>
        if !v.truthy || !v.isObj then
          runLoop verbose sendOk n rest
        else if v.typeField = some "ping" then
          if sendOk n then
            if sendOk (n + 1) then
              let r := runLoop verbose sendOk (n + 2) rest
              (r.1, .sent pongJson :: .sent keepSeatJson :: r.2)
            else (some (.raised .sendFail), [.sent pongJson])
          else (some (.raised .sendFail), [])
        else if v.typeField = some "disconnect" then
          (some .disconnect, [.log (.writeDebug v)])
        else if v.typeField = some "error" then
          (some (.protocolError (errorDetail v raw)), [.log (.writeDebug v)])
        else if verbose then
          let r := runLoop verbose sendOk n rest
          (r.1, .log (.serverSaid (preview raw)) :: r.2)
        else
          runLoop verbose sendOk n rest

/-- Embedding of `communicate_ws(reconnect)`.  With `reconnect` true it
opens a fresh socket (emitting `opened` on constructor success) and sends
the startWatching frame as send number 0; the `with ws:` block is entered
only after that send, so a send failure there leaves the socket
unreleased.  With `reconnect` false it adopts the extractor's already-open
handle (its openness recorded as `opened`).  `closed` is emitted whenever
the `with` block exits, on every exit kind. -/
def communicate_ws (reconnect : Bool) (t : StreamTarget) (verbose : Bool)
    (s : SessionScript) : Option RunExit × List Ev :=
  if reconnect then
    if s.openOk then
      let pre := Ev.opened ::
        (if verbose then [Ev.log .sendingStartWatching] else [])
      if s.sendOk 0 then
        let r := runLoop verbose s.sendOk 1 s.events
        match r.1 with
        | none =>
          (none, pre ++ Ev.sent (startWatchingJson t.live_quality t.live_latency) :: r.2)
        | some e =>
          (some e, pre ++ Ev.sent (startWatchingJson t.live_quality t.live_latency) :: (r.2 ++ [Ev.closed]))
      else (some (.raised .sendFail), pre)
    else (some (.raised .openFail), [])
  else
    let r := runLoop verbose s.sendOk 0 s.events
    match r.1 with
    | none => (none, Ev.opened :: r.2)
    | some e => (some e, Ev.opened :: (r.2 ++ [Ev.closed]))

/-- Final state of the supervisor loop on a finite script: `stopped` when
`communicate_ws` returned `True`, `outOfScript` when the scripted
behaviour ran out while the loop would still be running. -/
inductive WsMainResult where
  | stopped : WsMainResult
  | outOfScript : WsMainResult

/-- Embedding of the `ws_main` loop body, one `SessionScript` per loop
iteration.  A `True` return stops the loop; a returned `DownloadError`
(protocol error) falls through the `if ret is True` test and loops again
immediately; a raised exception is caught, logged, and followed by
`time.sleep(10)`.  The `finally` clause makes every iteration after the
first use `reconnect = True`. -/
def ws_mainAux (t : StreamTarget) (verbose : Bool) :
    Bool → List SessionScript → List Ev × WsMainResult
  | _, [] => ([], .outOfScript)
  | reconnect, s :: rest =>
    let r := communicate_ws reconnect t verbose s
    match r.1 with
    | some .disconnect => (r.2, .stopped)
    | some (.protocolError _) =>
      let r2 := ws_mainAux t verbose true rest
      (r.2 ++ r2.1, r2.2)
    | some (.raised e) =>
      let r2 := ws_mainAux t verbose true rest
      (r.2 ++ .log (.reconnectingAfter e) :: .slept 10 :: r2.1, r2.2)
    | none => (r.2, .outOfScript)

/-- Embedding of `ws_main`: the first iteration runs with
`reconnect = False`. -/
def ws_main (t : StreamTarget) (verbose : Bool)
    (scripts : List SessionScript) : List Ev × WsMainResult :=
  ws_mainAux t verbose false scripts

/-- Embedding of `real_download`: raises a fatal setup error when the
websocket dependency is missing, otherwise starts the `ws_main` thread and
calls `dl.download` exactly once.  The trace lists the supervisor's events
followed by the single delegate call (one interleaving; the claims count
events, for which the order is irrelevant). -/
def real_download (hasWebSocket : Bool) (t : StreamTarget) (verbose : Bool)
    (scripts : List SessionScript) : Except String (List Ev) :=
  if hasWebSocket then
    .ok ((ws_main t verbose scripts).1 ++ [.delegateCall])
  else
    .error "Install websockets or websocket_client package via pip, or install websockat program"

/-- Matcher for a sent session-start frame (its `"type"` field is
`"startWatching"`). -/
def Ev.isStartWatchingSend : Ev → Bool
  | .sent (.jobj (("type", .jstr "startWatching") :: _)) => true
  | _ => false

/-- Matcher for the media-delegate invocation event. -/
def Ev.isDelegateCall : Ev → Bool
  | .delegateCall => true
  | _ => false

/-- Matcher for a sleep event. -/
def Ev.isSlept : Ev → Bool
  | .slept _ => true
  | _ => false

/-- Number of session-start frames sent in a trace. -/
def countStartWatching (tr : List Ev) : Nat := tr.countP Ev.isStartWatchingSend

/-- Number of media-delegate invocations in a trace. -/
def countDelegateCalls (tr : List Ev) : Nat := tr.countP Ev.isDelegateCall

/-- Matcher for a socket-open event. -/
def Ev.isOpened : Ev → Bool
  | .opened => true
  | _ => false

/-- Matcher for a socket-close event. -/
def Ev.isClosed : Ev → Bool
  | .closed => true
  | _ => false

/-- Net number of sockets opened minus closed along a trace. -/
def openBal : List Ev → Int
  | [] => 0
  | .opened :: rest => openBal rest + 1
  | .closed :: rest => openBal rest - 1
  | _ :: rest => openBal rest

/-- Running maximum of simultaneously open sockets along a trace:
`cur` is the current number of open sockets, `m` the maximum so far. -/
def maxOpenAux : List Ev → Int → Int → Int
  | [], _, m => m
  | .opened :: rest, cur, m => maxOpenAux rest (cur + 1) (max m (cur + 1))
  | .closed :: rest, cur, m => maxOpenAux rest (cur - 1) m
  | _ :: rest, cur, m => maxOpenAux rest cur m

/-- Maximum number of simultaneously open sockets over a whole trace. -/
def maxOpen (tr : List Ev) : Int := maxOpenAux tr 0 0

/-! ## Helper lemmas -/

/-- An object with a string `"type"` field is non-empty, hence truthy. -/
lemma truthy_of_typeField (v : JVal) (s : String)
    (hty : v.typeField = some s) (hobj : v.isObj = true) : v.truthy = true := by
  cases v <;> simp [JVal.isObj] at hobj
  case jobj fs =>
    cases fs with
    | nil => simp [JVal.typeField, JVal.get, lookupField] at hty
    | cons a rest => simp [JVal.truthy]

/-- A disconnect frame makes the receive loop return `True` at once, with
only the debug log emitted. -/
lemma runLoop_disconnect (verbose : Bool) (sendOk : Nat → Bool) (n : Nat)
    (raw : String) (v : JVal) (rest : List RecvEvent)
    (hraw : raw ≠ "") (hobj : v.isObj = true)
    (hty : v.typeField = some "disconnect") :
    runLoop verbose sendOk n (.frame (.parsed raw v) :: rest)
      = (some .disconnect, [.log (.writeDebug v)]) := by
  have htr := truthy_of_typeField v _ hty hobj
  simp [runLoop, Frame.raw, hraw, htr, hobj, hty]

/-- A frame parsing to a falsy or non-object value is skipped and the loop
continues unchanged. -/
lemma runLoop_skip (verbose : Bool) (sendOk : Nat → Bool) (n : Nat)
    (raw : String) (v : JVal) (rest : List RecvEvent)
    (hv : v.truthy = false ∨ v.isObj = false) :
    runLoop verbose sendOk n (.frame (.parsed raw v) :: rest)
      = runLoop verbose sendOk n rest := by
  by_cases hraw : raw = ""
  · simp [runLoop, Frame.raw, hraw]
  · rcases hv with hv | hv <;> simp [runLoop, Frame.raw, hraw, hv]

/-- A malformed nonempty frame makes `json.loads` raise, ending the loop
with a raised decode error and no events. -/
lemma runLoop_malformed (verbose : Bool) (sendOk : Nat → Bool) (n : Nat)
    (raw : String) (rest : List RecvEvent) (hraw : raw ≠ "") :
    runLoop verbose sendOk n (.frame (.malformed raw) :: rest)
      = (some (.raised (.jsonDecode raw)), []) := by
  simp [runLoop, Frame.raw, hraw]

/-- An error frame ends the loop with a protocol error whose detail is
computed by `errorDetail`. -/
lemma runLoop_error (verbose : Bool) (sendOk : Nat → Bool) (n : Nat)
    (raw : String) (v : JVal) (rest : List RecvEvent)
    (hraw : raw ≠ "") (hobj : v.isObj = true)
    (hty : v.typeField = some "error") :
    runLoop verbose sendOk n (.frame (.parsed raw v) :: rest)
      = (some (.protocolError (errorDetail v raw)), [.log (.writeDebug v)]) := by
  have htr := truthy_of_typeField v _ hty hobj
  simp [runLoop, Frame.raw, hraw, htr, hobj, hty]

/-- A session whose run returned `True` stops the supervisor loop with no
retry events appended. -/
lemma ws_mainAux_stop (t : StreamTarget) (verbose rc : Bool)
    (s : SessionScript) (rest : List SessionScript)
    (h : (communicate_ws rc t verbose s).1 = some .disconnect) :
    ws_mainAux t verbose rc (s :: rest) = ((communicate_ws rc t verbose s).2, .stopped) := by
  simp only [ws_mainAux, h]

/-! ## Claim theorems -/

/-- C4: a received frame decoding to an object with type `"disconnect"`
makes the session run return the normal-disconnect result immediately, and
the supervisor loop on any session ending that way terminates in its
terminal state `stopped`, appending no retry events (no reconnect log, no
sleep, no further session). -/
theorem disconnect_yields_stop (verbose : Bool) (sendOk : Nat → Bool) (n : Nat)
    (raw : String) (v : JVal) (rest : List RecvEvent)
    (hraw : raw ≠ "") (hobj : v.isObj = true)
    (hty : v.typeField = some "disconnect") :
    runLoop verbose sendOk n (.frame (.parsed raw v) :: rest)
      = (some .disconnect, [.log (.writeDebug v)])
    ∧ ∀ (t : StreamTarget) (vb rc : Bool) (s : SessionScript)
        (scripts : List SessionScript),
        (communicate_ws rc t vb s).1 = some .disconnect →
        ws_mainAux t vb rc (s :: scripts) = ((communicate_ws rc t vb s).2, .stopped) :=
  ⟨runLoop_disconnect verbose sendOk n raw v rest hraw hobj hty,
   fun t vb rc s scripts h => ws_mainAux_stop t vb rc s scripts h⟩

/-- C4 witness: the theorem applied to a concrete disconnect frame and a
concrete one-session script. -/
theorem disconnect_yields_stop_witness :
    runLoop true (fun _ => true) 0
      [.frame (.parsed "d" (.jobj [("type", .jstr "disconnect")]))]
      = (some .disconnect, [.log (.writeDebug (.jobj [("type", .jstr "disconnect")]))])
    ∧ ws_mainAux ⟨"high", "high"⟩ true false
        [⟨true, fun _ => true, [.frame (.parsed "d" (.jobj [("type", .jstr "disconnect")]))]⟩]
      = ((communicate_ws false ⟨"high", "high"⟩ true
          ⟨true, fun _ => true, [.frame (.parsed "d" (.jobj [("type", .jstr "disconnect")]))]⟩).2,
         .stopped) := by
  have h := disconnect_yields_stop true (fun _ => true) 0 "d"
      (.jobj [("type", .jstr "disconnect")]) [] (by decide) rfl rfl
  exact ⟨h.1, h.2 ⟨"high", "high"⟩ true false
      ⟨true, fun _ => true, [.frame (.parsed "d" (.jobj [("type", .jstr "disconnect")]))]⟩ [] rfl⟩

/-- C1 counterexample: a malformed (unparseable) frame does not decode to
an ignored value — `json.loads` raises, the exception crosses the run
boundary (the session exit is `raised`, not a continue), and the
supervisor's catch-all turns it into a logged retry with a sleep. -/
theorem malformed_raises_cex :
    (runLoop true (fun _ => true) 0 [.frame (.malformed "not json")]).1
      = some (.raised (.jsonDecode "not json"))
    ∧ (ws_mainAux ⟨"high", "high"⟩ false false
        [⟨true, fun _ => true, [.frame (.malformed "not json")]⟩]).1
      = [.opened, .closed, .log (.reconnectingAfter (.jsonDecode "not json")), .slept 10] :=
  ⟨rfl, rfl⟩

/-- C1 amended: a frame that parses to a non-object or falsy JSON value is
ignored and the loop continues unchanged to the next receive; a malformed
nonempty frame instead raises a JSON decode error past the run boundary
(the supervisor's catch-all then treats it like a transport error). -/
theorem frame_decode_handling (verbose : Bool) (sendOk : Nat → Bool) (n : Nat)
    (raw : String) (v : JVal) (rest : List RecvEvent) :
    (v.truthy = false ∨ v.isObj = false →
      runLoop verbose sendOk n (.frame (.parsed raw v) :: rest)
        = runLoop verbose sendOk n rest)
    ∧ (raw ≠ "" →
      runLoop verbose sendOk n (.frame (.malformed raw) :: rest)
        = (some (.raised (.jsonDecode raw)), [])) :=
  ⟨runLoop_skip verbose sendOk n raw v rest,
   fun hraw => runLoop_malformed verbose sendOk n raw rest hraw⟩

/-- C1 witness: the amended theorem applied to a non-object frame (the
number 5) and to a malformed frame. -/
theorem frame_decode_handling_witness :
    (runLoop true (fun _ => true) 0 [.frame (.parsed "5" (.jnum 5))]
      = runLoop true (fun _ => true) 0 [])
    ∧ (runLoop true (fun _ => true) 0 [.frame (.malformed "not json")]
      = (some (.raised (.jsonDecode "not json")), [])) :=
  ⟨(frame_decode_handling true (fun _ => true) 0 "5" (.jnum 5) []).1 (Or.inr rfl),
   (frame_decode_handling true (fun _ => true) 0 "not json" (.jnum 5) []).2 (by decide)⟩

/-- C5 counterexample: an error frame carrying the string code `""` does
not yield that code as the detail — Python's `or` treats the empty string
as falsy, so the detail falls back to the raw frame text. -/
theorem empty_error_code_cex :
    (runLoop false (fun _ => true) 0
      [.frame (.parsed "rawtext"
        (.jobj [("type", .jstr "error"), ("body", .jobj [("code", .jstr "")])]))]).1
      = some (.protocolError "rawtext")
    ∧ "rawtext" ≠ "" :=
  ⟨rfl, by decide⟩

/-- C5 amended: an error frame whose `body.code` is a nonempty string `X`
yields a protocol error with detail `X`; when the code is absent — or the
empty string, which Python's `or` fallback also rejects — the detail is
the raw frame text. -/
theorem error_frame_detail (verbose : Bool) (sendOk : Nat → Bool) (n : Nat)
    (raw : String) (v : JVal) (rest : List RecvEvent) (c : String)
    (hraw : raw ≠ "") (hobj : v.isObj = true)
    (hty : v.typeField = some "error") :
    (tryGetBodyCode v = some c → c ≠ "" →
      runLoop verbose sendOk n (.frame (.parsed raw v) :: rest)
        = (some (.protocolError c), [.log (.writeDebug v)]))
    ∧ (tryGetBodyCode v = none →
      runLoop verbose sendOk n (.frame (.parsed raw v) :: rest)
        = (some (.protocolError raw), [.log (.writeDebug v)]))
    ∧ (tryGetBodyCode v = some "" →
      runLoop verbose sendOk n (.frame (.parsed raw v) :: rest)
        = (some (.protocolError raw), [.log (.writeDebug v)])) := by
  refine ⟨fun hc hne => ?_, fun hc => ?_, fun hc => ?_⟩
  · rw [runLoop_error verbose sendOk n raw v rest hraw hobj hty]
    simp [errorDetail, hc, hne]
  · rw [runLoop_error verbose sendOk n raw v rest hraw hobj hty]
    simp [errorDetail, hc]
  · rw [runLoop_error verbose sendOk n raw v rest hraw hobj hty]
    simp [errorDetail, hc]

/-- C5 witness: the amended theorem applied to an error frame with code
`"FORBIDDEN"` and to one with no body at all. -/
theorem error_frame_detail_witness :
    (runLoop false (fun _ => true) 0
      [.frame (.parsed "r1"
        (.jobj [("type", .jstr "error"), ("body", .jobj [("code", .jstr "FORBIDDEN")])]))]
      = (some (.protocolError "FORBIDDEN"),
         [.log (.writeDebug
           (.jobj [("type", .jstr "error"), ("body", .jobj [("code", .jstr "FORBIDDEN")])]))]))
    ∧ (runLoop false (fun _ => true) 0
      [.frame (.parsed "r2" (.jobj [("type", .jstr "error")]))]
      = (some (.protocolError "r2"),
         [.log (.writeDebug (.jobj [("type", .jstr "error")]))])) :=
  ⟨(error_frame_detail false (fun _ => true) 0 "r1"
      (.jobj [("type", .jstr "error"), ("body", .jobj [("code", .jstr "FORBIDDEN")])])
      [] "FORBIDDEN" (by decide) rfl rfl).1 rfl (by decide),
   (error_frame_detail false (fun _ => true) 0 "r2"
      (.jobj [("type", .jstr "error")]) [] "unused" (by decide) rfl rfl).2.1 rfl⟩

/-- C9: an error frame whose `body.code` exists but is not a string (for
example a JSON number or object) is rejected by the `compat_str` type
filter of `try_get`, so the protocol-error detail falls back to the entire
raw frame text — with `raw` universally quantified, so the ~100-character
verbose preview bound never truncates the detail. -/
theorem nonstring_code_full_raw (verbose : Bool) (sendOk : Nat → Bool) (n : Nat)
    (raw : String) (v : JVal) (rest : List RecvEvent) (b c : JVal)
    (hraw : raw ≠ "") (hobj : v.isObj = true)
    (hty : v.typeField = some "error")
    (hbody : v.get "body" = some b) (hcode : b.get "code" = some c)
    (hns : ∀ s, c ≠ .jstr s) :
    runLoop verbose sendOk n (.frame (.parsed raw v) :: rest)
      = (some (.protocolError raw), [.log (.writeDebug v)]) := by
  have hnone : tryGetBodyCode v = none := by
    simp only [tryGetBodyCode, hbody, hcode]
    cases c <;> simp_all
  rw [runLoop_error verbose sendOk n raw v rest hraw hobj hty]
  simp [errorDetail, hnone]

/-- C9 witness: the theorem applied to an error frame whose code is the
number 403 and whose raw text is 110 characters long, yielding the full
untruncated text as the detail. -/
theorem nonstring_code_full_raw_witness :
    runLoop true (fun _ => true) 0
      [.frame (.parsed "xxxxxxxxxxxxxxxxxxxxxxxxxxxxxxxxxxxxxxxxxxxxxxxxxxxxxxxxxxxxxxxxxxxxxxxxxxxxxxxxxxxxxxxxxxxxxxxxxxxxxxxxxxxx"
        (.jobj [("type", .jstr "error"), ("body", .jobj [("code", .jnum 403)])]))]
      = (some (.protocolError "xxxxxxxxxxxxxxxxxxxxxxxxxxxxxxxxxxxxxxxxxxxxxxxxxxxxxxxxxxxxxxxxxxxxxxxxxxxxxxxxxxxxxxxxxxxxxxxxxxxxxxxxxxxx"),
         [.log (.writeDebug
           (.jobj [("type", .jstr "error"), ("body", .jobj [("code", .jnum 403)])]))]) :=
  nonstring_code_full_raw true (fun _ => true) 0
    "xxxxxxxxxxxxxxxxxxxxxxxxxxxxxxxxxxxxxxxxxxxxxxxxxxxxxxxxxxxxxxxxxxxxxxxxxxxxxxxxxxxxxxxxxxxxxxxxxxxxxxxxxxxx"
    (.jobj [("type", .jstr "error"), ("body", .jobj [("code", .jnum 403)])])
    [] (.jobj [("code", .jnum 403)]) (.jnum 403)
    (by decide) rfl rfl rfl rfl (fun s h => by cases h)

/-- C10: a frame parsing to a non-object or falsy JSON value (the empty
object included) is skipped silently, emitting no event even with verbose
diagnostics enabled; the bounded preview line appears exactly for the
frames decoding to a truthy object whose type is none of ping, disconnect,
error, and only under the verbose flag. -/
theorem silent_skip_and_preview (verbose : Bool) (sendOk : Nat → Bool) (n : Nat)
    (raw : String) (v : JVal) (rest : List RecvEvent) :
    (v.truthy = false ∨ v.isObj = false →
      runLoop verbose sendOk n (.frame (.parsed raw v) :: rest)
        = runLoop verbose sendOk n rest)
    ∧ (raw ≠ "" → v.truthy = true → v.isObj = true →
       v.typeField ≠ some "ping" → v.typeField ≠ some "disconnect" →
       v.typeField ≠ some "error" →
      runLoop verbose sendOk n (.frame (.parsed raw v) :: rest)
        = if verbose then
            ((runLoop verbose sendOk n rest).1,
             .log (.serverSaid (preview raw)) :: (runLoop verbose sendOk n rest).2)
          else runLoop verbose sendOk n rest) := by
  refine ⟨runLoop_skip verbose sendOk n raw v rest, ?_⟩
  intro hraw htr hobj hp hd he
  cases verbose <;> simp [runLoop, Frame.raw, hraw, htr, hobj, hp, hd, he]

/-- C10 witness: the theorem applied to the empty object (skipped with no
output despite verbose mode) and to a truthy object of unknown type
(previewed under verbose mode). -/
theorem silent_skip_and_preview_witness :
    (runLoop true (fun _ => true) 0 [.frame (.parsed "e" (.jobj []))]
      = runLoop true (fun _ => true) 0 [])
    ∧ (runLoop true (fun _ => true) 0
        [.frame (.parsed "chat frame" (.jobj [("type", .jstr "chat")]))]
      = if true then
          ((runLoop true (fun _ => true) 0 []).1,
           .log (.serverSaid (preview "chat frame")) :: (runLoop true (fun _ => true) 0 []).2)
        else runLoop true (fun _ => true) 0 []) :=
  ⟨(silent_skip_and_preview true (fun _ => true) 0 "e" (.jobj []) []).1 (Or.inl rfl),
   (silent_skip_and_preview true (fun _ => true) 0 "chat frame"
      (.jobj [("type", .jstr "chat")]) []).2
     (by decide) rfl rfl (by decide) (by decide) (by decide)⟩

/-- C6: a ping frame is answered by exactly one pong frame followed by
exactly one keep-seat frame before the next receive; a failure of the
first send raises before anything is transmitted, and a failure of the
second raises after just the pong, either way ending the session run with
the raised (transport-error) outcome. -/
theorem ping_sends_pong_and_keepseat (verbose : Bool) (sendOk : Nat → Bool) (n : Nat)
    (raw : String) (v : JVal) (rest : List RecvEvent)
    (hraw : raw ≠ "") (hobj : v.isObj = true)
    (hty : v.typeField = some "ping") :
    (sendOk n = true → sendOk (n + 1) = true →
      runLoop verbose sendOk n (.frame (.parsed raw v) :: rest)
        = ((runLoop verbose sendOk (n + 2) rest).1,
           .sent pongJson :: .sent keepSeatJson :: (runLoop verbose sendOk (n + 2) rest).2))
    ∧ (sendOk n = false →
      runLoop verbose sendOk n (.frame (.parsed raw v) :: rest)
        = (some (.raised .sendFail), []))
    ∧ (sendOk n = true → sendOk (n + 1) = false →
      runLoop verbose sendOk n (.frame (.parsed raw v) :: rest)
        = (some (.raised .sendFail), [.sent pongJson])) := by
  have htr := truthy_of_typeField v _ hty hobj
  refine ⟨fun h1 h2 => ?_, fun h1 => ?_, fun h1 h2 => ?_⟩
  · simp [runLoop, Frame.raw, hraw, htr, hobj, hty, h1, h2]
  · simp [runLoop, Frame.raw, hraw, htr, hobj, hty, h1]
  · simp [runLoop, Frame.raw, hraw, htr, hobj, hty, h1, h2]

/-- C6 witness: the theorem applied to a concrete ping frame, with all
sends succeeding, with the first send failing, and with only the second
send failing. -/
theorem ping_sends_pong_and_keepseat_witness :
    (runLoop false (fun _ => true) 0
        [.frame (.parsed "p" (.jobj [("type", .jstr "ping")]))]
      = ((runLoop false (fun _ => true) 2 []).1,
         .sent pongJson :: .sent keepSeatJson :: (runLoop false (fun _ => true) 2 []).2))
    ∧ (runLoop false (fun _ => false) 0
        [.frame (.parsed "p" (.jobj [("type", .jstr "ping")]))]
      = (some (.raised .sendFail), []))
    ∧ (runLoop false (fun k => decide (k = 0)) 0
        [.frame (.parsed "p" (.jobj [("type", .jstr "ping")]))]
      = (some (.raised .sendFail), [.sent pongJson])) :=
  ⟨(ping_sends_pong_and_keepseat false (fun _ => true) 0 "p"
      (.jobj [("type", .jstr "ping")]) [] (by decide) rfl rfl).1 rfl rfl,
   (ping_sends_pong_and_keepseat false (fun _ => false) 0 "p"
      (.jobj [("type", .jstr "ping")]) [] (by decide) rfl rfl).2.1 rfl,
   (ping_sends_pong_and_keepseat false (fun k => decide (k = 0)) 0 "p"
      (.jobj [("type", .jstr "ping")]) [] (by decide) rfl rfl).2.2 rfl rfl⟩

/-! ## Trace characterization lemmas -/

/-- Every event the receive loop emits is a pong send, a keep-seat send,
or a log line. -/
lemma runLoop_events (verbose : Bool) (sendOk : Nat → Bool) :
    ∀ (evs : List RecvEvent) (n : Nat) (e : Ev),
      e ∈ (runLoop verbose sendOk n evs).2 →
      e = .sent pongJson ∨ e = .sent keepSeatJson ∨ ∃ l, e = .log l := by
  intro evs
  induction evs with
  | nil => intro n e he; simp [runLoop] at he
  | cons head rest ih =>
    intro n e he
    rcases head with f | _
    · rcases f with raw | ⟨raw, v⟩ <;> simp only [runLoop, Frame.raw] at he <;>
        split at he
      · exact ih n e he
      · simp at he
      · exact ih n e he
      · split at he
        · exact ih n e he
        · split at he
          · split at he
            · split at he
              · simp at he
                rcases he with h | h | h
                · exact Or.inl h
                · exact Or.inr (Or.inl h)
                · exact ih _ e h
              · simp at he; exact Or.inl he
            · simp at he
          · split at he
            · simp at he; exact Or.inr (Or.inr ⟨_, he⟩)
            · split at he
              · simp at he; exact Or.inr (Or.inr ⟨_, he⟩)
              · split at he
                · simp at he
                  rcases he with h | h
                  · exact Or.inr (Or.inr ⟨_, h⟩)
                  · exact ih n e h
                · exact ih n e he
    · simp [runLoop] at he

/-- The receive loop never sends a session-start frame. -/
lemma runLoop_no_startWatching (verbose : Bool) (sendOk : Nat → Bool)
    (n : Nat) (evs : List RecvEvent) :
    countStartWatching (runLoop verbose sendOk n evs).2 = 0 := by
  rw [countStartWatching, List.countP_eq_zero]
  intro e he
  rcases runLoop_events verbose sendOk evs n e he with h | h | ⟨l, h⟩ <;>
    subst h <;> simp [Ev.isStartWatchingSend, pongJson, keepSeatJson]

/-- Every event a session emits is a socket open, a socket close, a frame
send, or a log line. -/
lemma communicate_ws_events (rc : Bool) (t : StreamTarget) (verbose : Bool)
    (s : SessionScript) (e : Ev) (he : e ∈ (communicate_ws rc t verbose s).2) :
    e = .opened ∨ e = .closed ∨ (∃ v, e = .sent v) ∨ ∃ l, e = .log l := by
  have hrun : ∀ (n : Nat), e ∈ (runLoop verbose s.sendOk n s.events).2 →
      e = .opened ∨ e = .closed ∨ (∃ v, e = .sent v) ∨ ∃ l, e = .log l := by
    intro n h
    rcases runLoop_events verbose s.sendOk s.events n e h with h | h | ⟨l, h⟩
    · exact Or.inr (Or.inr (Or.inl ⟨_, h⟩))
    · exact Or.inr (Or.inr (Or.inl ⟨_, h⟩))
    · exact Or.inr (Or.inr (Or.inr ⟨_, h⟩))
  rcases rc with _ | _
  · rcases hx : (runLoop verbose s.sendOk 0 s.events).1 with _ | ex <;>
      simp only [communicate_ws, Bool.false_eq_true, if_false, hx] at he <;>
      simp at he
    · rcases he with h | h
      · exact Or.inl h
      · exact hrun 0 h
    · rcases he with h | h | h
      · exact Or.inl h
      · exact hrun 0 h
      · exact Or.inr (Or.inl h)
  · rcases ho : s.openOk with _ | _
    · simp [communicate_ws, ho] at he
    · rcases hs0 : s.sendOk 0 with _ | _
      · simp [communicate_ws, ho, hs0] at he
        rcases he with h | h
        · exact Or.inl h
        · exact Or.inr (Or.inr (Or.inr ⟨_, h.2⟩))
      · rcases hx : (runLoop verbose s.sendOk 1 s.events).1 with _ | ex <;>
          simp only [communicate_ws, ho, hs0, hx, if_true] at he <;> simp at he
        · rcases he with h | h | h | h
          · exact Or.inl h
          · exact Or.inr (Or.inr (Or.inr ⟨_, h.2⟩))
          · exact Or.inr (Or.inr (Or.inl ⟨_, h⟩))
          · exact hrun 1 h
        · rcases he with h | h | h | h | h
          · exact Or.inl h
          · exact Or.inr (Or.inr (Or.inr ⟨_, h.2⟩))
          · exact Or.inr (Or.inr (Or.inl ⟨_, h⟩))
          · exact hrun 1 h
          · exact Or.inr (Or.inl h)

/-- Generic zero-count principle for session traces. -/
lemma communicate_ws_countP_zero (rc : Bool) (t : StreamTarget) (verbose : Bool)
    (s : SessionScript) (p : Ev → Bool)
    (hopened : p .opened = false) (hclosed : p .closed = false)
    (hsent : ∀ v, p (.sent v) = false) (hlog : ∀ l, p (.log l) = false) :
    (communicate_ws rc t verbose s).2.countP p = 0 := by
  rw [List.countP_eq_zero]
  intro e he
  rcases communicate_ws_events rc t verbose s e he with h | h | ⟨v, h⟩ | ⟨l, h⟩ <;>
    subst h <;> simp [hopened, hclosed, hsent, hlog]

/-- A fresh session whose open and first send succeed transmits exactly one
session-start frame. -/
lemma fresh_session_one_start (t : StreamTarget) (verbose : Bool) (s : SessionScript)
    (ho : s.openOk = true) (hs0 : s.sendOk 0 = true) :
    countStartWatching (communicate_ws true t verbose s).2 = 1 := by
  have h0 := runLoop_no_startWatching verbose s.sendOk 1 s.events
  rw [countStartWatching] at h0 ⊢
  rcases hx : (runLoop verbose s.sendOk 1 s.events).1 with _ | ex <;>
    simp only [communicate_ws, ho, hs0, hx, if_true] <;>
    rcases verbose with _ | _ <;>
    simp [List.countP_cons, List.countP_append, Ev.isStartWatchingSend,
      startWatchingJson, h0]

/-- Every event the supervisor loop emits is a socket open, a socket
close, a frame send, a log line, or the 10-second sleep. -/
lemma ws_mainAux_events (t : StreamTarget) (verbose : Bool) :
    ∀ (scripts : List SessionScript) (rc : Bool) (e : Ev),
      e ∈ (ws_mainAux t verbose rc scripts).1 →
      e = .opened ∨ e = .closed ∨ (∃ v, e = .sent v) ∨ (∃ l, e = .log l) ∨ e = .slept 10 := by
  intro scripts
  induction scripts with
  | nil => intro rc e he; simp [ws_mainAux] at he
  | cons s rest ih =>
    intro rc e he
    rcases hx : (communicate_ws rc t verbose s).1 with _ | ex
    · simp only [ws_mainAux, hx] at he
      have := communicate_ws_events rc t verbose s e he
      tauto
    · rcases ex with _ | d | excep <;> simp only [ws_mainAux, hx] at he
      · have := communicate_ws_events rc t verbose s e he
        tauto
      · simp at he
        rcases he with h | h
        · have := communicate_ws_events rc t verbose s e h
          tauto
        · have := ih true e h
          tauto
      · simp at he
        rcases he with h | h | h | h
        · have := communicate_ws_events rc t verbose s e h
          tauto
        · exact Or.inr (Or.inr (Or.inr (Or.inl ⟨_, h⟩)))
        · exact Or.inr (Or.inr (Or.inr (Or.inr h)))
        · have := ih true e h
          tauto

/-- The supervisor loop never invokes the media delegate. -/
lemma ws_mainAux_no_delegate (t : StreamTarget) (verbose : Bool)
    (scripts : List SessionScript) (rc : Bool) :
    countDelegateCalls (ws_mainAux t verbose rc scripts).1 = 0 := by
  rw [countDelegateCalls, List.countP_eq_zero]
  intro e he
  rcases ws_mainAux_events t verbose scripts rc e he with h | h | ⟨v, h⟩ | ⟨l, h⟩ | h <;>
    subst h <;> simp [Ev.isDelegateCall]

/-- Socket balance distributes over trace concatenation. -/
lemma openBal_append : ∀ (a b : List Ev), openBal (a ++ b) = openBal a + openBal b := by
  intro a b
  induction a with
  | nil => simp [openBal]
  | cons x rest ih =>
    cases x
    all_goals simp [openBal, ih]
    · ring
    · ring

/-- A trace without socket events has socket balance zero. -/
lemma openBal_sockFree : ∀ (tr : List Ev),
    (∀ e ∈ tr, e ≠ .opened ∧ e ≠ .closed) → openBal tr = 0 := by
  intro tr
  induction tr with
  | nil => intro _; rfl
  | cons x rest ih =>
    intro h
    have hrest : ∀ e ∈ rest, e ≠ Ev.opened ∧ e ≠ Ev.closed :=
      fun e he => h e (by simp [he])
    cases x
    case opened => exact absurd rfl (h _ (List.mem_cons_self _ _)).1
    case closed => exact absurd rfl (h _ (List.mem_cons_self _ _)).2
    all_goals simp [openBal, ih hrest]

/-- A trace without socket events does not change the running maximum. -/
lemma maxOpenAux_sockFree : ∀ (tr : List Ev) (cur m : Int),
    (∀ e ∈ tr, e ≠ .opened ∧ e ≠ .closed) → maxOpenAux tr cur m = m := by
  intro tr
  induction tr with
  | nil => intro cur m _; rfl
  | cons x rest ih =>
    intro cur m h
    have hrest : ∀ e ∈ rest, e ≠ Ev.opened ∧ e ≠ Ev.closed :=
      fun e he => h e (by simp [he])
    cases x
    case opened => exact absurd rfl (h _ (List.mem_cons_self _ _)).1
    case closed => exact absurd rfl (h _ (List.mem_cons_self _ _)).2
    all_goals simp [maxOpenAux, ih _ _ hrest]

/-- The running maximum over a concatenation is computed piecewise. -/
lemma maxOpenAux_append : ∀ (a b : List Ev) (cur m : Int),
    maxOpenAux (a ++ b) cur m = maxOpenAux b (cur + openBal a) (maxOpenAux a cur m) := by
  intro a
  induction a with
  | nil => intro b cur m; simp [maxOpenAux, openBal]
  | cons x rest ih =>
    intro b cur m
    cases x <;> simp only [List.cons_append, maxOpenAux, openBal, List.append_eq] <;> rw [ih]
    · have h : cur + 1 + openBal rest = cur + (openBal rest + 1) := by ring
      rw [h]
    · have h : cur - 1 + openBal rest = cur + (openBal rest - 1) := by ring
      rw [h]

/-- The accumulated maximum never decreases. -/
lemma le_maxOpenAux : ∀ (tr : List Ev) (cur m : Int), m ≤ maxOpenAux tr cur m := by
  intro tr
  induction tr with
  | nil => intro cur m; exact le_refl m
  | cons x rest ih =>
    intro cur m
    cases x <;> simp only [maxOpenAux]
    case opened => exact le_trans (le_max_left m (cur + 1)) (ih (cur + 1) (m ⊔ (cur + 1)))
    all_goals exact ih _ _

/-- A single open followed by socket-free events peaks at one extra open
socket. -/
lemma maxOpenAux_open_mid (mid : List Ev)
    (hmid : ∀ e ∈ mid, e ≠ Ev.opened ∧ e ≠ Ev.closed) (cur m : Int) :
    maxOpenAux (.opened :: mid) cur m = max m (cur + 1) := by
  simp only [maxOpenAux]
  exact maxOpenAux_sockFree mid _ _ hmid

/-- An open, socket-free middle, and final close peak at one extra open
socket. -/
lemma maxOpenAux_open_mid_close (mid : List Ev)
    (hmid : ∀ e ∈ mid, e ≠ Ev.opened ∧ e ≠ Ev.closed) (cur m : Int) :
    maxOpenAux (.opened :: (mid ++ [.closed])) cur m = max m (cur + 1) := by
  simp only [maxOpenAux, maxOpenAux_append, openBal_sockFree mid hmid,
    maxOpenAux_sockFree mid _ _ hmid]

/-- An open, socket-free middle, and final close leave the balance at
zero. -/
lemma openBal_open_mid_close (mid : List Ev)
    (hmid : ∀ e ∈ mid, e ≠ Ev.opened ∧ e ≠ Ev.closed) :
    openBal (.opened :: (mid ++ [.closed])) = 0 := by
  simp [openBal, openBal_append, openBal_sockFree mid hmid]

/-- The receive loop emits no socket events. -/
lemma runLoop_sockFree (verbose : Bool) (sendOk : Nat → Bool) (n : Nat)
    (evs : List RecvEvent) :
    ∀ e ∈ (runLoop verbose sendOk n evs).2, e ≠ Ev.opened ∧ e ≠ Ev.closed := by
  intro e he
  rcases runLoop_events verbose sendOk evs n e he with h | h | ⟨l, h⟩ <;>
    subst h <;> exact ⟨by simp, by simp⟩

/-- One session never holds more than one socket above the surrounding
level: its running maximum is bounded by the larger of the incoming
maximum and one more than the incoming open count. -/
lemma communicate_ws_maxOpen (rc : Bool) (t : StreamTarget) (verbose : Bool)
    (s : SessionScript) (cur m : Int) :
    maxOpenAux (communicate_ws rc t verbose s).2 cur m ≤ max m (cur + 1) := by
  have hpre : ∀ e ∈ (if verbose then [Ev.log .sendingStartWatching] else ([] : List Ev)),
      e ≠ Ev.opened ∧ e ≠ Ev.closed := by
    rcases verbose <;> simp
  rcases rc with _ | _
  · rcases hx : (runLoop verbose s.sendOk 0 s.events).1 with _ | ex <;>
      simp only [communicate_ws, Bool.false_eq_true, if_false, hx]
    · rw [maxOpenAux_open_mid _ (runLoop_sockFree verbose s.sendOk 0 s.events)]
    · rw [maxOpenAux_open_mid_close _ (runLoop_sockFree verbose s.sendOk 0 s.events)]
  · rcases ho : s.openOk with _ | _
    · simp [communicate_ws, ho, maxOpenAux]
    · rcases hs0 : s.sendOk 0 with _ | _
      · simp only [communicate_ws, ho, hs0, if_true, Bool.false_eq_true, if_false]
        rw [maxOpenAux_open_mid _ hpre]
      · have hmid : ∀ e ∈ (if verbose = true then [Ev.log LogLine.sendingStartWatching]
              else []) ++ Ev.sent (startWatchingJson t.live_quality t.live_latency)
                :: (runLoop verbose s.sendOk 1 s.events).2,
            e ≠ Ev.opened ∧ e ≠ Ev.closed := by
          intro e he
          rcases List.mem_append.mp he with h | h
          · exact hpre e h
          · rcases List.mem_cons.mp h with h | h
            · subst h; exact ⟨by simp, by simp⟩
            · exact runLoop_sockFree verbose s.sendOk 1 s.events e h
        rcases hx : (runLoop verbose s.sendOk 1 s.events).1 with _ | ex <;>
          simp only [communicate_ws, ho, hs0, hx, if_true]
        · rw [List.cons_append, maxOpenAux_open_mid _ hmid]
        · have hshape : (Ev.opened :: if verbose = true
                then [Ev.log LogLine.sendingStartWatching] else []) ++
              Ev.sent (startWatchingJson t.live_quality t.live_latency) ::
                ((runLoop verbose s.sendOk 1 s.events).2 ++ [Ev.closed])
              = Ev.opened :: (((if verbose = true
                  then [Ev.log LogLine.sendingStartWatching] else []) ++
                Ev.sent (startWatchingJson t.live_quality t.live_latency) ::
                  (runLoop verbose s.sendOk 1 s.events).2) ++ [Ev.closed]) := by
            simp
          rw [hshape, maxOpenAux_open_mid_close _ hmid]

/-- A session whose first send succeeds and whose run exits releases its
socket: the trace's socket balance is zero. -/
lemma communicate_ws_openBal (rc : Bool) (t : StreamTarget) (verbose : Bool)
    (s : SessionScript) (ex : RunExit) (h0 : s.sendOk 0 = true)
    (hx2 : (communicate_ws rc t verbose s).1 = some ex) :
    openBal (communicate_ws rc t verbose s).2 = 0 := by
  have hpre : ∀ e ∈ (if verbose then [Ev.log .sendingStartWatching] else ([] : List Ev)),
      e ≠ Ev.opened ∧ e ≠ Ev.closed := by
    rcases verbose <;> simp
  have hmid : ∀ e ∈ (if verbose = true then [Ev.log LogLine.sendingStartWatching]
        else []) ++ Ev.sent (startWatchingJson t.live_quality t.live_latency)
          :: (runLoop verbose s.sendOk 1 s.events).2,
      e ≠ Ev.opened ∧ e ≠ Ev.closed := by
    intro e he
    rcases List.mem_append.mp he with h | h
    · exact hpre e h
    · rcases List.mem_cons.mp h with h | h
      · subst h; exact ⟨by simp, by simp⟩
      · exact runLoop_sockFree verbose s.sendOk 1 s.events e h
  rcases rc with _ | _
  · rcases hx : (runLoop verbose s.sendOk 0 s.events).1 with _ | ex' <;>
      simp only [communicate_ws, Bool.false_eq_true, if_false, hx] at hx2 ⊢
    · simp at hx2
    · exact openBal_open_mid_close _ (runLoop_sockFree verbose s.sendOk 0 s.events)
  · rcases ho : s.openOk with _ | _
    · simp [communicate_ws, ho, openBal]
    · rcases hx : (runLoop verbose s.sendOk 1 s.events).1 with _ | ex' <;>
        simp only [communicate_ws, ho, h0, hx, if_true] at hx2 ⊢
      · simp at hx2
      · have hshape : (Ev.opened :: if verbose = true
              then [Ev.log LogLine.sendingStartWatching] else []) ++
            Ev.sent (startWatchingJson t.live_quality t.live_latency) ::
              ((runLoop verbose s.sendOk 1 s.events).2 ++ [Ev.closed])
            = Ev.opened :: (((if verbose = true
                then [Ev.log LogLine.sendingStartWatching] else []) ++
              Ev.sent (startWatchingJson t.live_quality t.live_latency) ::
                (runLoop verbose s.sendOk 1 s.events).2) ++ [Ev.closed]) := by
          simp
        rw [hshape]
        exact openBal_open_mid_close _ hmid

/-- When every script's first send succeeds, the supervisor's trace never
exceeds the larger of the incoming maximum and one open socket. -/
lemma ws_mainAux_maxOpen (t : StreamTarget) (verbose : Bool) :
    ∀ (scripts : List SessionScript) (rc : Bool) (m : Int),
      (∀ s ∈ scripts, s.sendOk 0 = true) → 0 ≤ m →
      maxOpenAux (ws_mainAux t verbose rc scripts).1 0 m ≤ max m 1 := by
  intro scripts
  induction scripts with
  | nil =>
    intro rc m _ _
    simp [ws_mainAux, maxOpenAux]
  | cons s rest ih =>
    intro rc m h hm
    have hs : s.sendOk 0 = true := h s (List.mem_cons_self s rest)
    have hrest : ∀ x ∈ rest, x.sendOk 0 = true :=
      fun x hx => h x (List.mem_cons_of_mem s hx)
    have hses : maxOpenAux (communicate_ws rc t verbose s).2 0 m ≤ max m 1 := by
      simpa using communicate_ws_maxOpen rc t verbose s 0 m
    have hA : (0 : Int) ≤ maxOpenAux (communicate_ws rc t verbose s).2 0 m :=
      le_trans hm (le_maxOpenAux _ 0 m)
    rcases hx : (communicate_ws rc t verbose s).1 with _ | ex
    · simp only [ws_mainAux, hx]
      exact hses
    · have hbal := communicate_ws_openBal rc t verbose s ex hs hx
      rcases ex with _ | d | excep <;> simp only [ws_mainAux, hx]
      · exact hses
      · rw [maxOpenAux_append, hbal, add_zero]
        exact le_trans (ih true _ hrest hA) (max_le hses (le_max_right m 1))
      · rw [maxOpenAux_append, hbal, add_zero]
        simp only [maxOpenAux]
        exact le_trans (ih true _ hrest hA) (max_le hses (le_max_right m 1))

/-- C2 counterexample: a session ending in a protocol error (an error
frame) is retried with no backoff at all — the supervisor's trace goes
straight from the failed session to the fresh one, with zero sleep events,
unlike the claimed fixed 10-second delay. -/
theorem protocol_error_no_delay_cex :
    (ws_main ⟨"high", "high"⟩ false
      [⟨true, fun _ => true, [.frame (.parsed "err" (.jobj [("type", .jstr "error")]))]⟩,
       ⟨true, fun _ => true, [.frame (.parsed "d" (.jobj [("type", .jstr "disconnect")]))]⟩]).1
      = [.opened, .log (.writeDebug (.jobj [("type", .jstr "error")])), .closed,
         .opened, .sent (startWatchingJson "high" "high"),
         .log (.writeDebug (.jobj [("type", .jstr "disconnect")])), .closed]
    ∧ (ws_main ⟨"high", "high"⟩ false
      [⟨true, fun _ => true, [.frame (.parsed "err" (.jobj [("type", .jstr "error")]))]⟩,
       ⟨true, fun _ => true, [.frame (.parsed "d" (.jobj [("type", .jstr "disconnect")]))]⟩]).1.countP
        Ev.isSlept = 0 :=
  ⟨rfl, rfl⟩

/-- C2 amended: after a transport error (a raised exception) the
supervisor logs, sleeps the fixed 10 seconds, and proceeds with a fresh
session; after a protocol error it proceeds with a fresh session
immediately, inserting nothing — session traces themselves contain no
sleep — and every fresh session whose open and first send succeed sends
exactly one session-start frame. -/
theorem retry_after_error_paths (t : StreamTarget) (verbose rc : Bool)
    (s : SessionScript) (rest : List SessionScript) :
    (∀ ex, (communicate_ws rc t verbose s).1 = some (.raised ex) →
      ws_mainAux t verbose rc (s :: rest)
        = ((communicate_ws rc t verbose s).2
            ++ .log (.reconnectingAfter ex) :: .slept 10
            :: (ws_mainAux t verbose true rest).1,
           (ws_mainAux t verbose true rest).2))
    ∧ (∀ d, (communicate_ws rc t verbose s).1 = some (.protocolError d) →
      ws_mainAux t verbose rc (s :: rest)
        = ((communicate_ws rc t verbose s).2 ++ (ws_mainAux t verbose true rest).1,
           (ws_mainAux t verbose true rest).2))
    ∧ (communicate_ws rc t verbose s).2.countP Ev.isSlept = 0
    ∧ (∀ s2 : SessionScript, s2.openOk = true → s2.sendOk 0 = true →
        countStartWatching (communicate_ws true t verbose s2).2 = 1) := by
  refine ⟨fun ex h => ?_, fun d h => ?_, ?_, fun s2 ho hs0 => ?_⟩
  · simp only [ws_mainAux, h]
  · simp only [ws_mainAux, h]
  · exact communicate_ws_countP_zero rc t verbose s Ev.isSlept rfl rfl
      (fun v => rfl) (fun l => rfl)
  · exact fresh_session_one_start t verbose s2 ho hs0

/-- C2 witness: the amended theorem applied to a transport-failing session
(conjunct one), a protocol-error session (conjunct two), and a concrete
fresh session (conjunct four). -/
theorem retry_after_error_paths_witness :
    (ws_mainAux ⟨"high", "high"⟩ false false
        [⟨true, fun _ => true, [.fail]⟩,
         ⟨true, fun _ => true, [.frame (.parsed "d" (.jobj [("type", .jstr "disconnect")]))]⟩]
      = ((communicate_ws false ⟨"high", "high"⟩ false ⟨true, fun _ => true, [.fail]⟩).2
          ++ .log (.reconnectingAfter .recvFail) :: .slept 10
          :: (ws_mainAux ⟨"high", "high"⟩ false true
              [⟨true, fun _ => true,
                [.frame (.parsed "d" (.jobj [("type", .jstr "disconnect")]))]⟩]).1,
         (ws_mainAux ⟨"high", "high"⟩ false true
           [⟨true, fun _ => true,
             [.frame (.parsed "d" (.jobj [("type", .jstr "disconnect")]))]⟩]).2))
    ∧ (ws_mainAux ⟨"high", "high"⟩ false false
        [⟨true, fun _ => true, [.frame (.parsed "err" (.jobj [("type", .jstr "error")]))]⟩]
      = ((communicate_ws false ⟨"high", "high"⟩ false
            ⟨true, fun _ => true, [.frame (.parsed "err" (.jobj [("type", .jstr "error")]))]⟩).2
          ++ (ws_mainAux ⟨"high", "high"⟩ false true []).1,
         (ws_mainAux ⟨"high", "high"⟩ false true []).2))
    ∧ countStartWatching (communicate_ws true ⟨"high", "high"⟩ false
        ⟨true, fun _ => true, []⟩).2 = 1 :=
  ⟨(retry_after_error_paths ⟨"high", "high"⟩ false false ⟨true, fun _ => true, [.fail]⟩
      [⟨true, fun _ => true, [.frame (.parsed "d" (.jobj [("type", .jstr "disconnect")]))]⟩]).1
      .recvFail rfl,
   (retry_after_error_paths ⟨"high", "high"⟩ false false
      ⟨true, fun _ => true, [.frame (.parsed "err" (.jobj [("type", .jstr "error")]))]⟩ []).2.1
      "err" rfl,
   (retry_after_error_paths ⟨"high", "high"⟩ false false ⟨true, fun _ => true, []⟩ []).2.2.2
      ⟨true, fun _ => true, []⟩ rfl rfl⟩

/-- C3: a session run with the caller-supplied handle (`reconnect` false)
sends zero session-start frames, and a fresh open whose connection and
first send succeed sends exactly one session-start frame whose JSON
content is the startWatching object with the target's quality and latency
tiers, protocol hls+fmp4, chasePlay false, webSocket commentable room,
and reconnect true. -/
theorem session_start_policy (t : StreamTarget) (verbose : Bool) (s : SessionScript) :
    countStartWatching (communicate_ws false t verbose s).2 = 0
    ∧ (s.openOk = true → s.sendOk 0 = true →
        countStartWatching (communicate_ws true t verbose s).2 = 1
        ∧ Ev.sent (.jobj [("type", .jstr "startWatching"),
            ("data", .jobj
              [("stream", .jobj
                [("quality", .jstr t.live_quality),
                 ("protocol", .jstr "hls+fmp4"),
                 ("latency", .jstr t.live_latency),
                 ("chasePlay", .jbool false)]),
               ("room", .jobj
                [("protocol", .jstr "webSocket"),
                 ("commentable", .jbool true)]),
               ("reconnect", .jbool true)])])
          ∈ (communicate_ws true t verbose s).2) := by
  constructor
  · have h0 := runLoop_no_startWatching verbose s.sendOk 0 s.events
    rw [countStartWatching] at h0 ⊢
    rcases hx : (runLoop verbose s.sendOk 0 s.events).1 with _ | ex <;>
      simp [communicate_ws, hx, List.countP_cons, List.countP_append,
        Ev.isStartWatchingSend, h0]
  · intro ho hs0
    refine ⟨fresh_session_one_start t verbose s ho hs0, ?_⟩
    have : Ev.sent (startWatchingJson t.live_quality t.live_latency)
        ∈ (communicate_ws true t verbose s).2 := by
      rcases hx : (runLoop verbose s.sendOk 1 s.events).1 with _ | ex <;>
        simp [communicate_ws, ho, hs0, hx]
    simpa [startWatchingJson] using this

/-- C3 witness: the theorem applied to a concrete session script; the
reused session sends nothing and the fresh one sends the startWatching
frame with quality high and latency low. -/
theorem session_start_policy_witness :
    countStartWatching (communicate_ws false ⟨"high", "low"⟩ false
      ⟨true, fun _ => true, []⟩).2 = 0
    ∧ (countStartWatching (communicate_ws true ⟨"high", "low"⟩ false
          ⟨true, fun _ => true, []⟩).2 = 1
        ∧ Ev.sent (.jobj [("type", .jstr "startWatching"),
            ("data", .jobj
              [("stream", .jobj
                [("quality", .jstr "high"),
                 ("protocol", .jstr "hls+fmp4"),
                 ("latency", .jstr "low"),
                 ("chasePlay", .jbool false)]),
               ("room", .jobj
                [("protocol", .jstr "webSocket"),
                 ("commentable", .jbool true)]),
               ("reconnect", .jbool true)])])
          ∈ (communicate_ws true ⟨"high", "low"⟩ false ⟨true, fun _ => true, []⟩).2) :=
  ⟨(session_start_policy ⟨"high", "low"⟩ false ⟨true, fun _ => true, []⟩).1,
   (session_start_policy ⟨"high", "low"⟩ false ⟨true, fun _ => true, []⟩).2 rfl rfl⟩

/-- C7: for every script of control-channel behaviour — hence for any
number of reconnects — a successful `real_download` trace contains exactly
one media-delegate invocation; the supervisor loop itself never emits
one. -/
theorem delegate_called_exactly_once (t : StreamTarget) (verbose : Bool)
    (scripts : List SessionScript) (tr : List Ev)
    (h : real_download true t verbose scripts = .ok tr) :
    countDelegateCalls tr = 1 := by
  have htr : tr = (ws_main t verbose scripts).1 ++ [.delegateCall] := by
    have := h.symm
    simpa [real_download] using this
  have h0 := ws_mainAux_no_delegate t verbose scripts false
  rw [countDelegateCalls] at h0 ⊢
  rw [htr, List.countP_append, ws_main, h0]
  rfl

/-- C7 witness: the theorem applied to a run with one transport-error
reconnect followed by a clean disconnect. -/
theorem delegate_called_exactly_once_witness :
    countDelegateCalls
      [.opened, .closed, .log (.reconnectingAfter .recvFail), .slept 10,
       .opened, .sent (startWatchingJson "high" "high"),
       .log (.writeDebug (.jobj [("type", .jstr "disconnect")])), .closed,
       .delegateCall] = 1 :=
  delegate_called_exactly_once ⟨"high", "high"⟩ false
    [⟨true, fun _ => true, [.fail]⟩,
     ⟨true, fun _ => true, [.frame (.parsed "d" (.jobj [("type", .jstr "disconnect")]))]⟩]
    [.opened, .closed, .log (.reconnectingAfter .recvFail), .slept 10,
     .opened, .sent (startWatchingJson "high" "high"),
     .log (.writeDebug (.jobj [("type", .jstr "disconnect")])), .closed,
     .delegateCall]
    rfl

/-- C8 counterexample: when the session-start send on a freshly opened
socket fails, that socket is never released — the next retry opens
another one and two sockets are open at once, violating the claimed
invariant. -/
theorem socket_leak_cex :
    maxOpen (ws_main ⟨"high", "high"⟩ false
      [⟨true, fun _ => true, [.fail]⟩,
       ⟨true, fun _ => false, []⟩,
       ⟨true, fun _ => true, [.frame (.parsed "d" (.jobj [("type", .jstr "disconnect")]))]⟩]).1
      = 2
    ∧ ¬ (maxOpen (ws_main ⟨"high", "high"⟩ false
      [⟨true, fun _ => true, [.fail]⟩,
       ⟨true, fun _ => false, []⟩,
       ⟨true, fun _ => true, [.frame (.parsed "d" (.jobj [("type", .jstr "disconnect")]))]⟩]).1
      ≤ 1) :=
  ⟨rfl, by decide⟩

/-- C8 amended: provided every session's session-start send succeeds, at
most one control-channel socket is open at any point of the supervisor's
trace; without that proviso a failed session-start send leaks its
socket. -/
theorem at_most_one_socket (t : StreamTarget) (verbose : Bool)
    (scripts : List SessionScript)
    (h : ∀ s ∈ scripts, s.sendOk 0 = true) :
    maxOpen (ws_main t verbose scripts).1 ≤ 1 := by
  have := ws_mainAux_maxOpen t verbose scripts false 0 h le_rfl
  simpa [maxOpen, ws_main] using this

/-- C8 witness: the amended theorem applied to a run with a
transport-error reconnect, all session-start sends succeeding. -/
theorem at_most_one_socket_witness :
    maxOpen (ws_main ⟨"high", "high"⟩ false
      [⟨true, fun _ => true, [.fail]⟩,
       ⟨true, fun _ => true, [.frame (.parsed "d" (.jobj [("type", .jstr "disconnect")]))]⟩]).1
      ≤ 1 :=
  at_most_one_socket ⟨"high", "high"⟩ false
    [⟨true, fun _ => true, [.fail]⟩,
     ⟨true, fun _ => true, [.frame (.parsed "d" (.jobj [("type", .jstr "disconnect")]))]⟩]
    (by intro s hs; simp only [List.mem_cons, List.not_mem_nil, or_false] at hs;
        rcases hs with h | h <;> subst h <;> rfl)
